import Mathlib

/-!
Shallow embedding of the staged UVC camera pipeline
(`main/camera_task.c`, `main/encoding_task.c`, `main/event_handler_task.c`,
`main/uvc_stream_task.c`, `main/uvc_app_common.c`,
`components/os/os_startup.c`) of the JC-ESP32P4-M3-DEV-FK repository.

Each task's loop body is translated into a pure per-iteration function.
External effects (V4L2 ioctl results, heap allocation outcomes, the
monotonic clock) are supplied by an oracle record; the side effects an
iteration performs (driver buffer returns, frees, counter updates,
flag updates, lock operations) are recorded as an event trace, in the
order the C statements execute them.
-/

namespace Uvc

/-- `frame_buffer_t` from `uvc_app_common.h`.  The payload pointer is
dropped (only metadata is claim-relevant); the ownership-tag fields
`camera_buf_index` / `is_camera_buffer` are wrapped in `Option`, with
`none` standing for memory the C code never assigned (indeterminate). -/
structure FrameBuffer where
  size : Nat
  capacity : Nat
  timestamp : Int
  frame_number : Nat
  format : Nat
  camera_buf_index : Option Nat
  is_camera_buffer : Option Bool
deriving Repr, DecidableEq

/-- A FreeRTOS queue as created by `xQueueCreate`: a fixed capacity and
the items currently stored, oldest first. -/
structure BoundedQueue (α : Type) where
  capacity : Nat
  items : List α
deriving Repr, DecidableEq

/-- `xQueueSend(q, &x, 0)`: with a zero timeout the send either appends
the item (queue has space) or reports failure at once, leaving the
queue unchanged.  The `Bool` is `pdTRUE`/`pdFALSE`. -/
def BoundedQueue.trySend {α : Type} (q : BoundedQueue α) (x : α) :
    Bool × BoundedQueue α :=
  if q.items.length < q.capacity then
    (true, { q with items := q.items ++ [x] })
  else
    (false, q)

/-- `xQueueReceive(q, &x, timeout)`: pops the oldest item when one is
present; `none` models the timeout path on an empty queue. -/
def BoundedQueue.receive {α : Type} (q : BoundedQueue α) :
    Option α × BoundedQueue α :=
  match q.items with
  | [] => (none, q)
  | x :: xs => (some x, { q with items := xs })

/-- The event-group bits of `uvc_app_common.h` (`EVENT_CAMERA_READY`,
`EVENT_ENCODER_READY`, `EVENT_UVC_READY`, `EVENT_STREAMING_ACTIVE`,
`EVENT_SHUTDOWN`), as named booleans. -/
structure Flags where
  cameraReady : Bool
  encoderReady : Bool
  uvcReady : Bool
  streamingActive : Bool
  shutdown : Bool
deriving Repr, DecidableEq

/-- The four statistics counters of `app_context_t`. -/
inductive CounterId
  | captured
  | encoded
  | streamed
  | dropped
deriving Repr, DecidableEq

/-- Names for the event-group bits, used in flag-update events. -/
inductive FlagBit
  | cameraReady
  | encoderReady
  | uvcReady
  | streamingActive
  | shutdown
deriving Repr, DecidableEq

/-- A side effect performed by one C statement, recorded in program
order.  `qbufCam i` is `ioctl(cap_fd, VIDIOC_QBUF)` returning camera
mmap buffer `i` to the driver; `dqbufCamOk i` is a successful
`VIDIOC_DQBUF` checking buffer `i` out.  The `EncIn`/`EncOut` events
are the encoder (`m2m_fd`) buffer exchanges.  `freeMeta` is `free(frame)`
of the metadata struct alone; `freeOwned` is `frame_buffer_free`
(payload and metadata). -/
inductive Ev
  | takeCamLock
  | giveCamLock
  | takeEncLock
  | giveEncLock
  | dqbufCamOk (index : Nat)
  | qbufCam (index : Nat)
  | qbufEncIn
  | dqbufEncIn
  | qbufEncOut
  | dqbufEncOut
  | allocMeta
  | allocData
  | freeMeta
  | freeOwned
  | sendRaw
  | sendEncoded
  | incCounter (c : CounterId)
  | writeCounter (c : CounterId) (v : Nat)
  | setBit (b : FlagBit)
  | clearBit (b : FlagBit)
  | delayMs (ms : Nat)
deriving Repr, DecidableEq

/-- Number of occurrences of an event in a trace. -/
def countEv (e : Ev) (tr : List Ev) : Nat :=
  tr.countP (fun x => x = e)

/-- The prefix of a trace up to (excluding) the first release of the
encoder device lock: events that happen before the lock is given up. -/
def beforeEncUnlock (tr : List Ev) : List Ev :=
  tr.takeWhile (fun e => e ≠ Ev.giveEncLock)

/-- A filled `struct v4l2_buffer` as returned by a successful
`VIDIOC_DQBUF` on the capture device. -/
structure CapBuf where
  index : Nat
  bytesused : Nat
  length : Nat
deriving Repr, DecidableEq

/-- Heap outcomes for `frame_buffer_alloc`: whether the metadata
`heap_caps_malloc` and the payload `heap_caps_malloc` succeed. -/
structure AllocOracle where
  metaOk : Bool
  dataOk : Bool
deriving Repr, DecidableEq

/-- `frame_buffer_alloc` from `uvc_app_common.c`, with its heap events.
On metadata failure it returns `NULL` having allocated nothing; on
payload failure it frees the metadata and returns `NULL`; on success it
initialises `size`, `capacity`, `timestamp`, `frame_number` and
`format` but never writes `camera_buf_index` or `is_camera_buffer`. -/
def frame_buffer_alloc (capacity : Nat) (o : AllocOracle) :
    List Ev × Option FrameBuffer :=
  if ¬ o.metaOk then
    ([], none)
  else if ¬ o.dataOk then
    ([Ev.allocMeta, Ev.freeMeta], none)
  else
    ([Ev.allocMeta, Ev.allocData],
     some { size := 0, capacity := capacity, timestamp := 0,
            frame_number := 0, format := 0,
            camera_buf_index := none, is_camera_buffer := none })

/-- `return_camera_buffer_if_needed` from `encoding_task.c`: for a
zero-copy frame it takes the camera mutex, requeues the referenced
camera buffer with `VIDIOC_QBUF`, releases the mutex and frees the
metadata struct; otherwise it runs `frame_buffer_free`. -/
def return_camera_buffer_if_needed (f : FrameBuffer) : List Ev :=
  if f.is_camera_buffer = some true then
    [Ev.takeCamLock, Ev.qbufCam (f.camera_buf_index.getD 0),
     Ev.giveCamLock, Ev.freeMeta]
  else
    [Ev.freeOwned]

/-- External inputs consumed by one iteration of `mainCameraTask`'s
loop: the capture `VIDIOC_DQBUF` result, the metadata
`heap_caps_malloc` outcome, and `esp_timer_get_time()`. -/
structure CamOracle where
  dqbuf : Option CapBuf
  metaAllocOk : Bool
  now : Int
deriving Repr, DecidableEq

/-- Result of one iteration of `mainCameraTask`'s loop. -/
structure CamOut where
  trace : List Ev
  exited : Bool
  frameCounter : Nat
  rawQueue : BoundedQueue FrameBuffer
  sentFrame : Option FrameBuffer
deriving Repr, DecidableEq

/-- One iteration of the `while (1)` loop of `mainCameraTask`
(`camera_task.c`), translated statement by statement.  `frameCounter`
is `s_cam_ctx.frame_counter`; `rawQ` is `QUEUE_RAW_FRAME`. -/
def mainCameraTaskIter (flags : Flags) (o : CamOracle)
    (frameCounter : Nat) (rawQ : BoundedQueue FrameBuffer) : CamOut :=
  if flags.shutdown then
    ⟨[], true, frameCounter, rawQ, none⟩
  else if ¬ flags.streamingActive then
    ⟨[Ev.delayMs 100], false, frameCounter, rawQ, none⟩
  else
    match o.dqbuf with
    | none =>
      ⟨[Ev.takeCamLock, Ev.giveCamLock, Ev.delayMs 10],
       false, frameCounter, rawQ, none⟩
    | some cb =>
      if ¬ o.metaAllocOk then
        ⟨[Ev.takeCamLock, Ev.dqbufCamOk cb.index, Ev.qbufCam cb.index,
          Ev.giveCamLock, Ev.incCounter CounterId.dropped],
         false, frameCounter, rawQ, none⟩
      else
        let frame : FrameBuffer :=
          { size := cb.bytesused, capacity := cb.length,
            timestamp := o.now, frame_number := frameCounter,
            format := 0, camera_buf_index := some cb.index,
            is_camera_buffer := some true }
        let sent := rawQ.trySend frame
        if sent.1 then
          ⟨[Ev.takeCamLock, Ev.dqbufCamOk cb.index, Ev.giveCamLock,
            Ev.incCounter CounterId.captured, Ev.sendRaw, Ev.delayMs 1],
           false, frameCounter + 1, sent.2, some frame⟩
        else if frame.is_camera_buffer = some true then
          ⟨[Ev.takeCamLock, Ev.dqbufCamOk cb.index, Ev.giveCamLock,
            Ev.incCounter CounterId.captured, Ev.takeCamLock,
            Ev.qbufCam (frame.camera_buf_index.getD 0), Ev.giveCamLock,
            Ev.freeMeta, Ev.incCounter CounterId.dropped, Ev.delayMs 1],
           false, frameCounter + 1, sent.2, none⟩
        else
          ⟨[Ev.takeCamLock, Ev.dqbufCamOk cb.index, Ev.giveCamLock,
            Ev.incCounter CounterId.captured, Ev.freeOwned,
            Ev.incCounter CounterId.dropped, Ev.delayMs 1],
           false, frameCounter + 1, sent.2, none⟩

/-- External inputs consumed by one iteration of `mainEncodingTask`'s
loop: whether `VIDIOC_QBUF` on the encoder input succeeds, the encoder
output `VIDIOC_DQBUF` result (`bytesused` on success), the heap
outcomes for `frame_buffer_alloc`, and the pixel format reported by
`VIDIOC_G_FMT`. -/
structure EncOracle where
  submitOk : Bool
  outBytes : Option Nat
  alloc : AllocOracle
  pixelformat : Nat
deriving Repr, DecidableEq

/-- Result of one iteration of `mainEncodingTask`'s loop.  `processed`
is the raw frame dequeued this iteration (if any), `sentFrame` the
encoded frame accepted by `QUEUE_ENCODED_FRAME`. -/
structure EncOut where
  trace : List Ev
  exited : Bool
  rawQueue : BoundedQueue FrameBuffer
  encQueue : BoundedQueue FrameBuffer
  processed : Option FrameBuffer
  sentFrame : Option FrameBuffer
deriving Repr, DecidableEq

/-- One iteration of the `while (1)` loop of `mainEncodingTask`
(`encoding_task.c`), translated statement by statement. -/
def mainEncodingTaskIter (flags : Flags) (o : EncOracle)
    (rawQ encQ : BoundedQueue FrameBuffer) : EncOut :=
  if flags.shutdown then
    ⟨[], true, rawQ, encQ, none, none⟩
  else if ¬ flags.streamingActive then
    ⟨[Ev.delayMs 100], false, rawQ, encQ, none, none⟩
  else
    match rawQ.receive with
    | (none, _) =>
      ⟨[Ev.delayMs 100], false, rawQ, encQ, none, none⟩
    | (some raw, rawQ') =>
      if ¬ o.submitOk then
        ⟨[Ev.takeEncLock] ++ return_camera_buffer_if_needed raw ++
          [Ev.giveEncLock, Ev.incCounter CounterId.dropped],
         false, rawQ', encQ, some raw, none⟩
      else
        match o.outBytes with
        | none =>
          ⟨[Ev.takeEncLock, Ev.qbufEncIn, Ev.dqbufEncIn] ++
            return_camera_buffer_if_needed raw ++ [Ev.giveEncLock],
           false, rawQ', encQ, some raw, none⟩
        | some bytes =>
          match frame_buffer_alloc bytes o.alloc with
          | (allocTr, none) =>
            ⟨[Ev.takeEncLock, Ev.qbufEncIn, Ev.dqbufEncOut] ++ allocTr ++
              [Ev.qbufEncOut, Ev.dqbufEncIn] ++
              return_camera_buffer_if_needed raw ++
              [Ev.giveEncLock, Ev.incCounter CounterId.dropped],
             false, rawQ', encQ, some raw, none⟩
          | (allocTr, some f0) =>
            let encoded : FrameBuffer :=
              { f0 with size := bytes, timestamp := raw.timestamp,
                        frame_number := raw.frame_number,
                        format := o.pixelformat }
            let sent := encQ.trySend encoded
            if sent.1 then
              ⟨[Ev.takeEncLock, Ev.qbufEncIn, Ev.dqbufEncOut] ++ allocTr ++
                [Ev.qbufEncOut, Ev.dqbufEncIn, Ev.giveEncLock] ++
                return_camera_buffer_if_needed raw ++
                [Ev.incCounter CounterId.encoded, Ev.sendEncoded],
               false, rawQ', sent.2, some raw, some encoded⟩
            else
              ⟨[Ev.takeEncLock, Ev.qbufEncIn, Ev.dqbufEncOut] ++ allocTr ++
                [Ev.qbufEncOut, Ev.dqbufEncIn, Ev.giveEncLock] ++
                return_camera_buffer_if_needed raw ++
                [Ev.incCounter CounterId.encoded, Ev.freeOwned,
                 Ev.incCounter CounterId.dropped],
               false, rawQ', sent.2, some raw, none⟩

/-- External inputs for one invocation of the synchronous UVC callback
`video_fb_get_cb` (`uvc_stream_task.c`): the camera `VIDIOC_DQBUF`
result, whether the encoder input `VIDIOC_QBUF` succeeds, and the
encoder output `VIDIOC_DQBUF` result (`bytesused` on success). -/
structure FbOracle where
  dqbufCam : Option CapBuf
  encInOk : Bool
  encOut : Option Nat
deriving Repr, DecidableEq

/-- `video_fb_get_cb` from `uvc_stream_task.c`: the host-pull pipeline
that captures, encodes and hands a frame to the UVC transport inside a
single synchronous callback.  The returned `Bool` is whether a frame
buffer was handed back to the transport (non-`NULL` return).  Note it
consults no event-group bits. -/
def video_fb_get_cb (o : FbOracle) : List Ev × Bool :=
  match o.dqbufCam with
  | none => ([], false)
  | some cb =>
    if ¬ o.encInOk then
      ([Ev.dqbufCamOk cb.index, Ev.incCounter CounterId.captured,
        Ev.qbufCam cb.index], false)
    else
      match o.encOut with
      | none =>
        ([Ev.dqbufCamOk cb.index, Ev.incCounter CounterId.captured,
          Ev.qbufEncIn, Ev.qbufCam cb.index], false)
      | some _ =>
        ([Ev.dqbufCamOk cb.index, Ev.incCounter CounterId.captured,
          Ev.qbufEncIn, Ev.dqbufEncOut, Ev.qbufCam cb.index,
          Ev.dqbufEncIn, Ev.incCounter CounterId.encoded,
          Ev.incCounter CounterId.streamed], true)

/-- `system_event_type_t` from `uvc_app_common.h`, plus a case for an
out-of-range value reaching the `default` arm of the switch. -/
inductive SysEventType
  | startStream
  | stopStream
  | resetStats
  | changeFormat
  | changeResolution
  | errorReport
  | unknown
deriving Repr, DecidableEq

/-- The `switch (event.type)` body of `mainEventHandlerTask`
(`event_handler_task.c`), as the trace of flag/counter updates it
performs.  `SYS_EVENT_RESET_STATS` is four separate assignments, in
source order, with no lock held. -/
def eventHandlerDispatch : SysEventType → List Ev
  | SysEventType.startStream => [Ev.setBit FlagBit.streamingActive]
  | SysEventType.stopStream => [Ev.clearBit FlagBit.streamingActive]
  | SysEventType.resetStats =>
      [Ev.writeCounter CounterId.captured 0,
       Ev.writeCounter CounterId.encoded 0,
       Ev.writeCounter CounterId.streamed 0,
       Ev.writeCounter CounterId.dropped 0]
  | SysEventType.changeFormat => []
  | SysEventType.changeResolution => []
  | SysEventType.errorReport => []
  | SysEventType.unknown => []

/-- Result of one iteration of a loop that only polls `EVENT_SHUTDOWN`
and performs a trace. -/
structure LoopOut where
  trace : List Ev
  exited : Bool
deriving Repr, DecidableEq

/-- One iteration of `mainEventHandlerTask`'s loop: shutdown check,
then a 100 ms-bounded receive on `QUEUE_SYSTEM_EVENT` (`none` models
the timeout path), then the event switch. -/
def mainEventHandlerTaskIter (flags : Flags) (received : Option SysEventType) :
    LoopOut :=
  if flags.shutdown then ⟨[], true⟩
  else
    match received with
    | none => ⟨[Ev.delayMs 100], false⟩
    | some e => ⟨eventHandlerDispatch e, false⟩

/-- One iteration of `mainUvcStreamTask`'s loop: shutdown check, then a
1000 ms sleep (all data-plane work happens in the UVC callbacks). -/
def mainUvcStreamTaskIter (flags : Flags) : LoopOut :=
  if flags.shutdown then ⟨[], true⟩ else ⟨[Ev.delayMs 1000], false⟩

/-- One iteration of `mainMonitorTask`'s loop: shutdown check, then the
5000 ms `vTaskDelayUntil` and a read-only report. -/
def mainMonitorTaskIter (flags : Flags) : LoopOut :=
  if flags.shutdown then ⟨[], true⟩ else ⟨[Ev.delayMs 5000], false⟩

/-- `OS_QUEUE_MAX_ITEMS` from `os_service.h`. -/
def OS_QUEUE_MAX_ITEMS : Nat := 10

/-- `os_queue_id_en` from `os_interface.h`. -/
inductive QueueId
  | rawFrame
  | encodedFrame
  | systemEvent
deriving Repr, DecidableEq

/-- The capacity each queue is created with: `os_startup`
(`os_startup.c`) creates every entry of `queuebox` with the same call
`xQueueCreate(OS_QUEUE_MAX_ITEMS, OS_QUEUE_ITEM_SIZE)`. -/
def os_startup_queueCapacity : QueueId → Nat :=
  fun _ => OS_QUEUE_MAX_ITEMS

/-- `FRAME_QUEUE_SIZE` from `app_tasks.h` (a constant of the
alternative `app_tasks.c` implementation; `os_startup` does not use it). -/
def FRAME_QUEUE_SIZE : Nat := 3

/-- `ENCODED_QUEUE_SIZE` from `app_tasks.h`. -/
def ENCODED_QUEUE_SIZE : Nat := 3

/-- `EVENT_QUEUE_SIZE` from `app_tasks.h`. -/
def EVENT_QUEUE_SIZE : Nat := 10

/-- The shared state reachable from every task: the event-group bits,
the four `g_app_ctx` counters, the camera task's local frame counter,
and the two frame queues. -/
structure SysState where
  flags : Flags
  captured : Nat
  encoded : Nat
  streamed : Nat
  dropped : Nat
  camFrameCounter : Nat
  rawQ : BoundedQueue FrameBuffer
  encQ : BoundedQueue FrameBuffer
deriving Repr, DecidableEq

/-- Read one of the four counters. -/
def SysState.counter (s : SysState) : CounterId → Nat
  | CounterId.captured => s.captured
  | CounterId.encoded => s.encoded
  | CounterId.streamed => s.streamed
  | CounterId.dropped => s.dropped

/-- Write one of the four counters. -/
def SysState.setCounter (s : SysState) : CounterId → Nat → SysState
  | CounterId.captured, v => { s with captured := v }
  | CounterId.encoded, v => { s with encoded := v }
  | CounterId.streamed, v => { s with streamed := v }
  | CounterId.dropped, v => { s with dropped := v }

/-- Set an event-group bit (`xEventGroupSetBits`). -/
def Flags.set (f : Flags) : FlagBit → Flags
  | FlagBit.cameraReady => { f with cameraReady := true }
  | FlagBit.encoderReady => { f with encoderReady := true }
  | FlagBit.uvcReady => { f with uvcReady := true }
  | FlagBit.streamingActive => { f with streamingActive := true }
  | FlagBit.shutdown => { f with shutdown := true }

/-- Clear an event-group bit (`xEventGroupClearBits`). -/
def Flags.clear (f : Flags) : FlagBit → Flags
  | FlagBit.cameraReady => { f with cameraReady := false }
  | FlagBit.encoderReady => { f with encoderReady := false }
  | FlagBit.uvcReady => { f with uvcReady := false }
  | FlagBit.streamingActive => { f with streamingActive := false }
  | FlagBit.shutdown => { f with shutdown := false }

/-- Effect of a single recorded event on the shared state.  Lock,
driver, heap, queue-message and sleep events touch no shared field. -/
def applyEv (s : SysState) : Ev → SysState
  | Ev.incCounter c => s.setCounter c (s.counter c + 1)
  | Ev.writeCounter c v => s.setCounter c v
  | Ev.setBit b => { s with flags := s.flags.set b }
  | Ev.clearBit b => { s with flags := s.flags.clear b }
  | _ => s

/-- Effect of a whole trace, first event first. -/
def applyTrace (s : SysState) (tr : List Ev) : SysState :=
  tr.foldl applyEv s

/-- One scheduling step of the whole process: an iteration of one
task's loop, one invocation of a UVC callback, a one-time init/ter
hook, or `app_tasks_stop` setting `EVENT_SHUTDOWN`. -/
inductive Act
  | camera (o : CamOracle)
  | encoding (o : EncOracle)
  | fbGet (o : FbOracle)
  | eventHandler (received : Option SysEventType)
  | uvcLoop
  | monitorLoop
  | initCamera
  | initEncoding
  | initUvc
  | terCamera
  | terEncoding
  | terUvc
  | initiateShutdown
deriving Repr, DecidableEq

/-- The trace of shared-state effects an `Act` performs from state `s`.
Init hooks set the ready bits (`initCameraTask` etc.); ter hooks clear
them (`terCameraTask` etc.); `initiateShutdown` is
`xEventGroupSetBits(..., EVENT_SHUTDOWN)`. -/
def actTrace (s : SysState) : Act → List Ev
  | Act.camera o => (mainCameraTaskIter s.flags o s.camFrameCounter s.rawQ).trace
  | Act.encoding o => (mainEncodingTaskIter s.flags o s.rawQ s.encQ).trace
  | Act.fbGet o => (video_fb_get_cb o).1
  | Act.eventHandler r => (mainEventHandlerTaskIter s.flags r).trace
  | Act.uvcLoop => (mainUvcStreamTaskIter s.flags).trace
  | Act.monitorLoop => (mainMonitorTaskIter s.flags).trace
  | Act.initCamera => [Ev.setBit FlagBit.cameraReady]
  | Act.initEncoding => [Ev.setBit FlagBit.encoderReady]
  | Act.initUvc => [Ev.setBit FlagBit.uvcReady]
  | Act.terCamera => [Ev.clearBit FlagBit.cameraReady]
  | Act.terEncoding => [Ev.clearBit FlagBit.encoderReady]
  | Act.terUvc => [Ev.clearBit FlagBit.uvcReady]
  | Act.initiateShutdown => [Ev.setBit FlagBit.shutdown]

/-- Apply an `Act`: fold its trace into the shared state and thread the
task-local state (frame counter, queue contents) it updates. -/
def applyAct (s : SysState) : Act → SysState
  | Act.camera o =>
    let out := mainCameraTaskIter s.flags o s.camFrameCounter s.rawQ
    let s' := applyTrace s out.trace
    { s' with camFrameCounter := out.frameCounter, rawQ := out.rawQueue }
  | Act.encoding o =>
    let out := mainEncodingTaskIter s.flags o s.rawQ s.encQ
    let s' := applyTrace s out.trace
    { s' with rawQ := out.rawQueue, encQ := out.encQueue }
  | a => applyTrace s (actTrace s a)

/-- Interleave the event handler's pending write events with the
monitor's pending counter reads: `true` in the schedule runs the next
write, `false` takes the next read.  Models preemption between the
individual C statements; returns the values the reader observed. -/
def runInterleaved (s : SysState) : List Ev → List CounterId → List Bool → List Nat
  | _, _, [] => []
  | w :: ws, rs, true :: sched => runInterleaved (applyEv s w) ws rs sched
  | [], rs, true :: sched => runInterleaved s [] rs sched
  | ws, r :: rs, false :: sched => s.counter r :: runInterleaved s ws rs sched
  | ws, [], false :: sched => runInterleaved s ws [] sched

/-! ### Helper lemmas -/

theorem trySend_capacity {α : Type} (q : BoundedQueue α) (x : α) :
    (q.trySend x).2.capacity = q.capacity := by
  unfold BoundedQueue.trySend
  split <;> rfl

theorem receive_capacity {α : Type} (q : BoundedQueue α) :
    q.receive.2.capacity = q.capacity := by
  unfold BoundedQueue.receive
  rcases q with ⟨c, items⟩
  cases items <;> rfl

/-- On each of the four paths that process a dequeued zero-copy frame
(submit failure, output failure, allocation failure, success), the
encoding task requeues the referenced camera buffer exactly once. -/
theorem enc_processes_head_returns_once (flags : Flags) (eo : EncOracle)
    (f : FrameBuffer) (rest : List FrameBuffer) (encQ : BoundedQueue FrameBuffer)
    (cap2 : Nat) (i : Nat)
    (hsd : flags.shutdown = false) (hstr : flags.streamingActive = true)
    (hcam : f.is_camera_buffer = some true) (hidx : f.camera_buf_index = some i) :
    countEv (Ev.qbufCam i)
      (mainEncodingTaskIter flags eo ⟨cap2, f :: rest⟩ encQ).trace = 1 := by
  rcases eo with ⟨submitOk, outBytes, ⟨metaOk, dataOk⟩, pf⟩
  cases submitOk <;> cases outBytes <;> cases metaOk <;> cases dataOk <;>
    simp [mainEncodingTaskIter, BoundedQueue.receive, BoundedQueue.trySend,
      frame_buffer_alloc, return_camera_buffer_if_needed, hsd, hstr, hcam, hidx,
      countEv, List.countP_cons, List.countP_append] <;>
    split <;>
    simp [countEv, List.countP_cons, List.countP_append]

/-! ### Per-path equations for the task iterations -/

theorem cameraIter_allocfail_eq (flags : Flags) (o : CamOracle) (fc : Nat)
    (rawQ : BoundedQueue FrameBuffer) (cb : CapBuf)
    (hsd : flags.shutdown = false) (hstr : flags.streamingActive = true)
    (hdq : o.dqbuf = some cb) (hma : o.metaAllocOk = false) :
    mainCameraTaskIter flags o fc rawQ =
      ⟨[Ev.takeCamLock, Ev.dqbufCamOk cb.index, Ev.qbufCam cb.index,
        Ev.giveCamLock, Ev.incCounter CounterId.dropped],
       false, fc, rawQ, none⟩ := by
  simp [mainCameraTaskIter, hsd, hstr, hdq, hma]

theorem cameraIter_sent_eq (flags : Flags) (o : CamOracle) (fc : Nat)
    (rawQ : BoundedQueue FrameBuffer) (cb : CapBuf)
    (hsd : flags.shutdown = false) (hstr : flags.streamingActive = true)
    (hdq : o.dqbuf = some cb) (hma : o.metaAllocOk = true)
    (hfull : rawQ.items.length < rawQ.capacity) :
    mainCameraTaskIter flags o fc rawQ =
      ⟨[Ev.takeCamLock, Ev.dqbufCamOk cb.index, Ev.giveCamLock,
        Ev.incCounter CounterId.captured, Ev.sendRaw, Ev.delayMs 1],
       false, fc + 1,
       ⟨rawQ.capacity, rawQ.items ++
         [{ size := cb.bytesused, capacity := cb.length, timestamp := o.now,
            frame_number := fc, format := 0, camera_buf_index := some cb.index,
            is_camera_buffer := some true }]⟩,
       some { size := cb.bytesused, capacity := cb.length, timestamp := o.now,
              frame_number := fc, format := 0,
              camera_buf_index := some cb.index,
              is_camera_buffer := some true }⟩ := by
  simp [mainCameraTaskIter, hsd, hstr, hdq, hma, hfull, BoundedQueue.trySend]

theorem cameraIter_full_eq (flags : Flags) (o : CamOracle) (fc : Nat)
    (rawQ : BoundedQueue FrameBuffer) (cb : CapBuf)
    (hsd : flags.shutdown = false) (hstr : flags.streamingActive = true)
    (hdq : o.dqbuf = some cb) (hma : o.metaAllocOk = true)
    (hfull : ¬ rawQ.items.length < rawQ.capacity) :
    mainCameraTaskIter flags o fc rawQ =
      ⟨[Ev.takeCamLock, Ev.dqbufCamOk cb.index, Ev.giveCamLock,
        Ev.incCounter CounterId.captured, Ev.takeCamLock,
        Ev.qbufCam cb.index, Ev.giveCamLock, Ev.freeMeta,
        Ev.incCounter CounterId.dropped, Ev.delayMs 1],
       false, fc + 1, rawQ, none⟩ := by
  simp [mainCameraTaskIter, hsd, hstr, hdq, hma, hfull, BoundedQueue.trySend]

theorem encIter_submitfail_eq (flags : Flags) (eo : EncOracle)
    (f : FrameBuffer) (rest : List FrameBuffer) (encQ : BoundedQueue FrameBuffer)
    (cap2 : Nat)
    (hsd : flags.shutdown = false) (hstr : flags.streamingActive = true)
    (hsub : eo.submitOk = false) :
    mainEncodingTaskIter flags eo ⟨cap2, f :: rest⟩ encQ =
      ⟨Ev.takeEncLock :: return_camera_buffer_if_needed f ++
        [Ev.giveEncLock, Ev.incCounter CounterId.dropped],
       false, ⟨cap2, rest⟩, encQ, some f, none⟩ := by
  simp [mainEncodingTaskIter, BoundedQueue.receive, hsd, hstr, hsub]

theorem encIter_outfail_eq (flags : Flags) (eo : EncOracle)
    (f : FrameBuffer) (rest : List FrameBuffer) (encQ : BoundedQueue FrameBuffer)
    (cap2 : Nat)
    (hsd : flags.shutdown = false) (hstr : flags.streamingActive = true)
    (hsub : eo.submitOk = true) (hout : eo.outBytes = none) :
    mainEncodingTaskIter flags eo ⟨cap2, f :: rest⟩ encQ =
      ⟨[Ev.takeEncLock, Ev.qbufEncIn, Ev.dqbufEncIn] ++
        return_camera_buffer_if_needed f ++ [Ev.giveEncLock],
       false, ⟨cap2, rest⟩, encQ, some f, none⟩ := by
  simp [mainEncodingTaskIter, BoundedQueue.receive, hsd, hstr, hsub, hout]

theorem encIter_allocfail_eq (flags : Flags) (eo : EncOracle)
    (f : FrameBuffer) (rest : List FrameBuffer) (encQ : BoundedQueue FrameBuffer)
    (cap2 b : Nat) (tr0 : List Ev)
    (hsd : flags.shutdown = false) (hstr : flags.streamingActive = true)
    (hsub : eo.submitOk = true) (hout : eo.outBytes = some b)
    (halloc : frame_buffer_alloc b eo.alloc = (tr0, none)) :
    mainEncodingTaskIter flags eo ⟨cap2, f :: rest⟩ encQ =
      ⟨[Ev.takeEncLock, Ev.qbufEncIn, Ev.dqbufEncOut] ++ tr0 ++
        [Ev.qbufEncOut, Ev.dqbufEncIn] ++ return_camera_buffer_if_needed f ++
        [Ev.giveEncLock, Ev.incCounter CounterId.dropped],
       false, ⟨cap2, rest⟩, encQ, some f, none⟩ := by
  simp [mainEncodingTaskIter, BoundedQueue.receive, hsd, hstr, hsub, hout, halloc]

theorem encIter_success_eq (flags : Flags) (eo : EncOracle)
    (f : FrameBuffer) (rest : List FrameBuffer) (encQ : BoundedQueue FrameBuffer)
    (cap2 b : Nat) (tr0 : List Ev) (f0 : FrameBuffer)
    (hsd : flags.shutdown = false) (hstr : flags.streamingActive = true)
    (hsub : eo.submitOk = true) (hout : eo.outBytes = some b)
    (halloc : frame_buffer_alloc b eo.alloc = (tr0, some f0))
    (hspace : encQ.items.length < encQ.capacity) :
    mainEncodingTaskIter flags eo ⟨cap2, f :: rest⟩ encQ =
      ⟨[Ev.takeEncLock, Ev.qbufEncIn, Ev.dqbufEncOut] ++ tr0 ++
        [Ev.qbufEncOut, Ev.dqbufEncIn, Ev.giveEncLock] ++
        return_camera_buffer_if_needed f ++
        [Ev.incCounter CounterId.encoded, Ev.sendEncoded],
       false, ⟨cap2, rest⟩,
       ⟨encQ.capacity, encQ.items ++
         [{ f0 with size := b, timestamp := f.timestamp,
                    frame_number := f.frame_number,
                    format := eo.pixelformat }]⟩,
       some f,
       some { f0 with size := b, timestamp := f.timestamp,
                      frame_number := f.frame_number,
                      format := eo.pixelformat }⟩ := by
  simp [mainEncodingTaskIter, BoundedQueue.receive, BoundedQueue.trySend,
    hsd, hstr, hsub, hout, halloc, hspace]

theorem encIter_encfull_eq (flags : Flags) (eo : EncOracle)
    (f : FrameBuffer) (rest : List FrameBuffer) (encQ : BoundedQueue FrameBuffer)
    (cap2 b : Nat) (tr0 : List Ev) (f0 : FrameBuffer)
    (hsd : flags.shutdown = false) (hstr : flags.streamingActive = true)
    (hsub : eo.submitOk = true) (hout : eo.outBytes = some b)
    (halloc : frame_buffer_alloc b eo.alloc = (tr0, some f0))
    (hspace : ¬ encQ.items.length < encQ.capacity) :
    mainEncodingTaskIter flags eo ⟨cap2, f :: rest⟩ encQ =
      ⟨[Ev.takeEncLock, Ev.qbufEncIn, Ev.dqbufEncOut] ++ tr0 ++
        [Ev.qbufEncOut, Ev.dqbufEncIn, Ev.giveEncLock] ++
        return_camera_buffer_if_needed f ++
        [Ev.incCounter CounterId.encoded, Ev.freeOwned,
         Ev.incCounter CounterId.dropped],
       false, ⟨cap2, rest⟩, encQ, some f, none⟩ := by
  simp [mainEncodingTaskIter, BoundedQueue.receive, BoundedQueue.trySend,
    hsd, hstr, hsub, hout, halloc, hspace]

/-- Whatever encoded frame one encoding iteration hands to the encoded
queue carries the input slot's `timestamp` and `frame_number` and the
allocator's unassigned ownership-tag fields. -/
theorem encIter_sentFrame_char (flags : Flags) (eo : EncOracle) (f : FrameBuffer)
    (rest : List FrameBuffer) (encQ : BoundedQueue FrameBuffer) (cap2 : Nat)
    (g : FrameBuffer)
    (hg : (mainEncodingTaskIter flags eo ⟨cap2, f :: rest⟩ encQ).sentFrame = some g) :
    g.timestamp = f.timestamp ∧ g.frame_number = f.frame_number ∧
    g.camera_buf_index = none ∧ g.is_camera_buffer = none := by
  rcases eo with ⟨submitOk, outBytes, ⟨mo, dok⟩, pf⟩
  cases hsd : flags.shutdown
  · cases hstr : flags.streamingActive
    · simp [mainEncodingTaskIter, hsd, hstr] at hg
    · cases submitOk
      · simp [mainEncodingTaskIter, BoundedQueue.receive, hsd, hstr] at hg
      · cases outBytes with
        | none =>
          simp [mainEncodingTaskIter, BoundedQueue.receive, hsd, hstr] at hg
        | some b =>
          cases mo
          · simp [mainEncodingTaskIter, BoundedQueue.receive,
              frame_buffer_alloc, hsd, hstr] at hg
          · cases dok
            · simp [mainEncodingTaskIter, BoundedQueue.receive,
                frame_buffer_alloc, hsd, hstr] at hg
            · by_cases hspace : encQ.items.length < encQ.capacity
              · rw [encIter_success_eq flags ⟨true, some b, ⟨true, true⟩, pf⟩
                  f rest encQ cap2 b [Ev.allocMeta, Ev.allocData]
                  { size := 0, capacity := b, timestamp := 0, frame_number := 0,
                    format := 0, camera_buf_index := none,
                    is_camera_buffer := none }
                  hsd hstr rfl rfl (by simp [frame_buffer_alloc]) hspace] at hg
                simp only [Option.some.injEq] at hg
                subst hg
                exact ⟨rfl, rfl, rfl, rfl⟩
              · rw [encIter_encfull_eq flags ⟨true, some b, ⟨true, true⟩, pf⟩
                  f rest encQ cap2 b [Ev.allocMeta, Ev.allocData]
                  { size := 0, capacity := b, timestamp := 0, frame_number := 0,
                    format := 0, camera_buf_index := none,
                    is_camera_buffer := none }
                  hsd hstr rfl rfl (by simp [frame_buffer_alloc]) hspace] at hg
                simp at hg
  · simp [mainEncodingTaskIter, hsd] at hg

/-- A single event never changes the queue fields of the shared state. -/
theorem applyEv_preserves_queues (s : SysState) (e : Ev) :
    (applyEv s e).rawQ = s.rawQ ∧ (applyEv s e).encQ = s.encQ := by
  cases e with
  | incCounter c => cases c <;> simp [applyEv, SysState.setCounter, SysState.counter]
  | writeCounter c v => cases c <;> simp [applyEv, SysState.setCounter]
  | setBit b => simp [applyEv]
  | clearBit b => simp [applyEv]
  | takeCamLock => exact ⟨rfl, rfl⟩
  | giveCamLock => exact ⟨rfl, rfl⟩
  | takeEncLock => exact ⟨rfl, rfl⟩
  | giveEncLock => exact ⟨rfl, rfl⟩
  | dqbufCamOk i => exact ⟨rfl, rfl⟩
  | qbufCam i => exact ⟨rfl, rfl⟩
  | qbufEncIn => exact ⟨rfl, rfl⟩
  | dqbufEncIn => exact ⟨rfl, rfl⟩
  | qbufEncOut => exact ⟨rfl, rfl⟩
  | dqbufEncOut => exact ⟨rfl, rfl⟩
  | allocMeta => exact ⟨rfl, rfl⟩
  | allocData => exact ⟨rfl, rfl⟩
  | freeMeta => exact ⟨rfl, rfl⟩
  | freeOwned => exact ⟨rfl, rfl⟩
  | sendRaw => exact ⟨rfl, rfl⟩
  | sendEncoded => exact ⟨rfl, rfl⟩
  | delayMs ms => exact ⟨rfl, rfl⟩

/-- A whole trace never changes the queue fields of the shared state. -/
theorem applyTrace_preserves_queues (tr : List Ev) : ∀ s : SysState,
    (applyTrace s tr).rawQ = s.rawQ ∧ (applyTrace s tr).encQ = s.encQ := by
  induction tr with
  | nil => intro s; exact ⟨rfl, rfl⟩
  | cons e tl ih =>
    intro s
    have h1 := applyEv_preserves_queues s e
    have h2 := ih (applyEv s e)
    simp only [applyTrace, List.foldl_cons] at *
    exact ⟨h2.1.trans h1.1, h2.2.trans h1.2⟩

/-- One camera iteration never changes the raw queue's capacity. -/
theorem cameraIter_rawQueue_capacity (flags : Flags) (o : CamOracle)
    (fc : Nat) (q : BoundedQueue FrameBuffer) :
    (mainCameraTaskIter flags o fc q).rawQueue.capacity = q.capacity := by
  unfold mainCameraTaskIter BoundedQueue.trySend
  repeat' split
  all_goals rfl

/-- One encoding iteration never changes either queue's capacity. -/
theorem encIter_queue_capacities (flags : Flags) (o : EncOracle)
    (q1 q2 : BoundedQueue FrameBuffer) :
    (mainEncodingTaskIter flags o q1 q2).rawQueue.capacity = q1.capacity ∧
    (mainEncodingTaskIter flags o q1 q2).encQueue.capacity = q2.capacity := by
  rcases q1 with ⟨c1, items1⟩
  cases items1 with
  | nil =>
    by_cases h1 : flags.shutdown = true
    · simp [mainEncodingTaskIter, h1]
    · by_cases h2 : flags.streamingActive = true
      · simp [mainEncodingTaskIter, BoundedQueue.receive, h1, h2]
      · simp [mainEncodingTaskIter, h1, h2]
  | cons f rest =>
    by_cases h1 : flags.shutdown = true
    · simp [mainEncodingTaskIter, h1]
    · by_cases h2 : flags.streamingActive = true
      · rcases o with ⟨submitOk, outBytes, al, pf⟩
        cases submitOk
        · simp [mainEncodingTaskIter, BoundedQueue.receive, h1, h2]
        · cases outBytes with
          | none => simp [mainEncodingTaskIter, BoundedQueue.receive, h1, h2]
          | some b =>
            rcases halloc : frame_buffer_alloc b al with ⟨tr0, r⟩
            cases r with
            | none =>
              simp [mainEncodingTaskIter, BoundedQueue.receive, h1, h2, halloc]
            | some f0 =>
              by_cases hspace : q2.items.length < q2.capacity <;>
                simp [mainEncodingTaskIter, BoundedQueue.receive,
                  BoundedQueue.trySend, h1, h2, halloc, hspace]
      · simp [mainEncodingTaskIter, h1, h2]

/-! ### Claim theorems -/

/-- C1: every camera buffer checked out by `VIDIOC_DQBUF` in
`mainCameraTask` is requeued to the driver by `VIDIOC_QBUF` exactly
once, on every exit path: if the camera task does not hand the frame
to the raw queue (metadata-allocation failure, or queue-full drop) it
requeues the buffer itself exactly once; if it hands the frame off, it
requeues nothing and the encoding task requeues the buffer exactly
once on each of its paths (submit failure, output failure,
encoded-allocation failure, success). -/
theorem camera_buffer_requeued_exactly_once (flags : Flags) (o : CamOracle)
    (fc : Nat) (rawQ : BoundedQueue FrameBuffer) (cb : CapBuf)
    (hsd : flags.shutdown = false) (hstr : flags.streamingActive = true)
    (hdq : o.dqbuf = some cb) :
    ((mainCameraTaskIter flags o fc rawQ).sentFrame = none →
      countEv (Ev.qbufCam cb.index) (mainCameraTaskIter flags o fc rawQ).trace = 1) ∧
    (∀ f, (mainCameraTaskIter flags o fc rawQ).sentFrame = some f →
      countEv (Ev.qbufCam cb.index) (mainCameraTaskIter flags o fc rawQ).trace = 0 ∧
      f.is_camera_buffer = some true ∧ f.camera_buf_index = some cb.index ∧
      ∀ (flags2 : Flags) (eo : EncOracle) (rest : List FrameBuffer)
        (encQ : BoundedQueue FrameBuffer) (cap2 : Nat),
        flags2.shutdown = false → flags2.streamingActive = true →
        countEv (Ev.qbufCam cb.index)
          (mainEncodingTaskIter flags2 eo ⟨cap2, f :: rest⟩ encQ).trace = 1) := by
  by_cases hma : o.metaAllocOk = true
  · by_cases hfull : rawQ.items.length < rawQ.capacity
    · have hiter : mainCameraTaskIter flags o fc rawQ =
          ⟨[Ev.takeCamLock, Ev.dqbufCamOk cb.index, Ev.giveCamLock,
            Ev.incCounter CounterId.captured, Ev.sendRaw, Ev.delayMs 1],
           false, fc + 1, ⟨rawQ.capacity, rawQ.items ++
             [{ size := cb.bytesused, capacity := cb.length,
                timestamp := o.now, frame_number := fc, format := 0,
                camera_buf_index := some cb.index,
                is_camera_buffer := some true }]⟩,
           some { size := cb.bytesused, capacity := cb.length,
                  timestamp := o.now, frame_number := fc, format := 0,
                  camera_buf_index := some cb.index,
                  is_camera_buffer := some true }⟩ := by
        simp [mainCameraTaskIter, hsd, hstr, hdq, hma, hfull,
          BoundedQueue.trySend]
      rw [hiter]
      refine ⟨by intro hnone; simp at hnone, ?_⟩
      intro f hf
      simp only [Option.some.injEq] at hf
      subst hf
      refine ⟨by simp [countEv, List.countP_cons], rfl, rfl, ?_⟩
      intro flags2 eo rest encQ cap2 h2sd h2str
      exact enc_processes_head_returns_once flags2 eo _ rest encQ cap2 cb.index
        h2sd h2str rfl rfl
    · have hiter : mainCameraTaskIter flags o fc rawQ =
          ⟨[Ev.takeCamLock, Ev.dqbufCamOk cb.index, Ev.giveCamLock,
            Ev.incCounter CounterId.captured, Ev.takeCamLock,
            Ev.qbufCam cb.index, Ev.giveCamLock, Ev.freeMeta,
            Ev.incCounter CounterId.dropped, Ev.delayMs 1],
           false, fc + 1, rawQ, none⟩ := by
        simp [mainCameraTaskIter, hsd, hstr, hdq, hma, hfull,
          BoundedQueue.trySend]
      rw [hiter]
      refine ⟨by intro _; simp [countEv, List.countP_cons], ?_⟩
      intro f hf
      simp at hf
  · have hiter : mainCameraTaskIter flags o fc rawQ =
        ⟨[Ev.takeCamLock, Ev.dqbufCamOk cb.index, Ev.qbufCam cb.index,
          Ev.giveCamLock, Ev.incCounter CounterId.dropped],
         false, fc, rawQ, none⟩ := by
      simp [mainCameraTaskIter, hsd, hstr, hdq, hma]
    rw [hiter]
    refine ⟨by intro _; simp [countEv, List.countP_cons], ?_⟩
    intro f hf
    simp at hf

/-- C1 witness: concrete run of the success path — the camera task
hands the frame off and the encoding task requeues camera buffer 1
exactly once. -/
theorem camera_buffer_requeued_exactly_once_witness :
    countEv (Ev.qbufCam 1)
      (mainEncodingTaskIter ⟨true, true, true, true, false⟩
        ⟨true, some 7, ⟨true, true⟩, 30⟩
        ⟨10, [{ size := 50, capacity := 100, timestamp := 42, frame_number := 0,
                format := 0, camera_buf_index := some 1,
                is_camera_buffer := some true }]⟩ ⟨10, []⟩).trace = 1 :=
  ((camera_buffer_requeued_exactly_once ⟨true, true, true, true, false⟩
      ⟨some ⟨1, 50, 100⟩, true, 42⟩ 0 ⟨10, []⟩ ⟨1, 50, 100⟩ rfl rfl rfl).2
    { size := 50, capacity := 100, timestamp := 42, frame_number := 0,
      format := 0, camera_buf_index := some 1, is_camera_buffer := some true }
    (by decide)).2.2.2 ⟨true, true, true, true, false⟩
    ⟨true, some 7, ⟨true, true⟩, 30⟩ [] ⟨10, []⟩ 10 rfl rfl

/-- C2 counterexample: on the encoder-output (`VIDIOC_DQBUF`) failure
path the encoding task returns the borrowed camera buffer and
continues, but `g_app_ctx.frames_dropped` is NOT incremented — the
iteration's full trace contains no dropped increment, contradicting
the claim that this path increments the dropped counter. -/
theorem enc_output_failure_drop_not_counted :
    (mainEncodingTaskIter ⟨true, true, true, true, false⟩
        ⟨true, none, ⟨true, true⟩, 0⟩
        ⟨10, [{ size := 50, capacity := 100, timestamp := 42, frame_number := 0,
                format := 0, camera_buf_index := some 1,
                is_camera_buffer := some true }]⟩ ⟨10, []⟩).trace =
      [Ev.takeEncLock, Ev.qbufEncIn, Ev.dqbufEncIn, Ev.takeCamLock,
       Ev.qbufCam 1, Ev.giveCamLock, Ev.freeMeta, Ev.giveEncLock] ∧
    countEv (Ev.incCounter CounterId.dropped)
      (mainEncodingTaskIter ⟨true, true, true, true, false⟩
        ⟨true, none, ⟨true, true⟩, 0⟩
        ⟨10, [{ size := 50, capacity := 100, timestamp := 42, frame_number := 0,
                format := 0, camera_buf_index := some 1,
                is_camera_buffer := some true }]⟩ ⟨10, []⟩).trace = 0 := by
  decide

/-- C2 (amended): on encoder submission failure the borrowed input
slot is returned before the encoder lock is released, the dropped
counter is incremented, and the loop continues; on encoder-output
failure the slot is likewise returned before the lock is released and
the loop continues, but the dropped counter is NOT incremented on that
path. -/
theorem enc_failure_paths_return_before_unlock (flags : Flags) (eo : EncOracle)
    (f : FrameBuffer) (rest : List FrameBuffer) (encQ : BoundedQueue FrameBuffer)
    (cap2 i : Nat)
    (hsd : flags.shutdown = false) (hstr : flags.streamingActive = true)
    (hcam : f.is_camera_buffer = some true) (hidx : f.camera_buf_index = some i) :
    (eo.submitOk = false →
      Ev.qbufCam i ∈ beforeEncUnlock
        (mainEncodingTaskIter flags eo ⟨cap2, f :: rest⟩ encQ).trace ∧
      countEv (Ev.incCounter CounterId.dropped)
        (mainEncodingTaskIter flags eo ⟨cap2, f :: rest⟩ encQ).trace = 1 ∧
      (mainEncodingTaskIter flags eo ⟨cap2, f :: rest⟩ encQ).exited = false) ∧
    (eo.submitOk = true → eo.outBytes = none →
      Ev.qbufCam i ∈ beforeEncUnlock
        (mainEncodingTaskIter flags eo ⟨cap2, f :: rest⟩ encQ).trace ∧
      countEv (Ev.incCounter CounterId.dropped)
        (mainEncodingTaskIter flags eo ⟨cap2, f :: rest⟩ encQ).trace = 0 ∧
      (mainEncodingTaskIter flags eo ⟨cap2, f :: rest⟩ encQ).exited = false) := by
  constructor
  · intro hsub
    rw [encIter_submitfail_eq flags eo f rest encQ cap2 hsd hstr hsub]
    simp [return_camera_buffer_if_needed, hcam, hidx, beforeEncUnlock,
      countEv, List.countP_cons]
  · intro hsub hout
    rw [encIter_outfail_eq flags eo f rest encQ cap2 hsd hstr hsub hout]
    simp [return_camera_buffer_if_needed, hcam, hidx, beforeEncUnlock,
      countEv, List.countP_cons]

/-- C2 witness: both failure paths instantiated concretely. -/
theorem enc_failure_paths_return_before_unlock_witness :
    (Ev.qbufCam 1 ∈ beforeEncUnlock
      (mainEncodingTaskIter ⟨true, true, true, true, false⟩
        ⟨false, none, ⟨true, true⟩, 0⟩
        ⟨10, [{ size := 50, capacity := 100, timestamp := 42, frame_number := 0,
                format := 0, camera_buf_index := some 1,
                is_camera_buffer := some true }]⟩ ⟨10, []⟩).trace) ∧
    (Ev.qbufCam 1 ∈ beforeEncUnlock
      (mainEncodingTaskIter ⟨true, true, true, true, false⟩
        ⟨true, none, ⟨true, true⟩, 0⟩
        ⟨10, [{ size := 50, capacity := 100, timestamp := 42, frame_number := 0,
                format := 0, camera_buf_index := some 1,
                is_camera_buffer := some true }]⟩ ⟨10, []⟩).trace) :=
  ⟨((enc_failure_paths_return_before_unlock ⟨true, true, true, true, false⟩
      ⟨false, none, ⟨true, true⟩, 0⟩
      { size := 50, capacity := 100, timestamp := 42, frame_number := 0,
        format := 0, camera_buf_index := some 1, is_camera_buffer := some true }
      [] ⟨10, []⟩ 10 1 rfl rfl rfl rfl).1 rfl).1,
   ((enc_failure_paths_return_before_unlock ⟨true, true, true, true, false⟩
      ⟨true, none, ⟨true, true⟩, 0⟩
      { size := 50, capacity := 100, timestamp := 42, frame_number := 0,
        format := 0, camera_buf_index := some 1, is_camera_buffer := some true }
      [] ⟨10, []⟩ 10 1 rfl rfl rfl rfl).2 rfl rfl).1⟩

/-- C3: a zero-timeout send on a full channel rejects the item at once
leaving the queue unchanged, and the sender always runs the
ownership-cleanup path for the rejected slot: the camera task requeues
the borrowed camera buffer to the driver, frees the metadata and
increments dropped; the encoding task frees the owned encoded frame
and increments dropped. -/
theorem full_queue_send_rejects_and_cleans_up :
    (∀ (q : BoundedQueue FrameBuffer) (x : FrameBuffer),
      q.items.length = q.capacity → q.trySend x = (false, q)) ∧
    (∀ (flags : Flags) (o : CamOracle) (fc : Nat)
       (rawQ : BoundedQueue FrameBuffer) (cb : CapBuf),
      flags.shutdown = false → flags.streamingActive = true →
      o.dqbuf = some cb → o.metaAllocOk = true →
      rawQ.items.length = rawQ.capacity →
      countEv (Ev.qbufCam cb.index)
        (mainCameraTaskIter flags o fc rawQ).trace = 1 ∧
      countEv Ev.freeMeta (mainCameraTaskIter flags o fc rawQ).trace = 1 ∧
      countEv (Ev.incCounter CounterId.dropped)
        (mainCameraTaskIter flags o fc rawQ).trace = 1 ∧
      (mainCameraTaskIter flags o fc rawQ).sentFrame = none ∧
      (mainCameraTaskIter flags o fc rawQ).exited = false) ∧
    (∀ (flags : Flags) (eo : EncOracle) (f : FrameBuffer)
       (rest : List FrameBuffer) (encQ : BoundedQueue FrameBuffer)
       (cap2 b : Nat),
      flags.shutdown = false → flags.streamingActive = true →
      f.is_camera_buffer = some true →
      eo.submitOk = true → eo.outBytes = some b →
      eo.alloc.metaOk = true → eo.alloc.dataOk = true →
      encQ.items.length = encQ.capacity →
      countEv Ev.freeOwned
        (mainEncodingTaskIter flags eo ⟨cap2, f :: rest⟩ encQ).trace = 1 ∧
      countEv (Ev.incCounter CounterId.dropped)
        (mainEncodingTaskIter flags eo ⟨cap2, f :: rest⟩ encQ).trace = 1 ∧
      (mainEncodingTaskIter flags eo ⟨cap2, f :: rest⟩ encQ).sentFrame = none ∧
      (mainEncodingTaskIter flags eo ⟨cap2, f :: rest⟩ encQ).exited = false) := by
  refine ⟨?_, ?_, ?_⟩
  · intro q x h
    simp [BoundedQueue.trySend, h]
  · intro flags o fc rawQ cb hsd hstr hdq hma hfull
    rw [cameraIter_full_eq flags o fc rawQ cb hsd hstr hdq hma (by omega)]
    simp [countEv, List.countP_cons]
  · intro flags eo f rest encQ cap2 b hsd hstr hcam hsub hout hmeta hdata hfull
    have halloc : frame_buffer_alloc b eo.alloc =
        ([Ev.allocMeta, Ev.allocData],
         some { size := 0, capacity := b, timestamp := 0, frame_number := 0,
                format := 0, camera_buf_index := none,
                is_camera_buffer := none }) := by
      simp [frame_buffer_alloc, hmeta, hdata]
    rw [encIter_encfull_eq flags eo f rest encQ cap2 b _ _ hsd hstr hsub hout
      halloc (by omega)]
    simp [return_camera_buffer_if_needed, hcam, countEv, List.countP_cons,
      List.countP_append]

/-- C3 witness: both full-channel drops instantiated concretely
(raw queue full for the camera task, encoded queue full for the
encoding task, both at capacity 10). -/
theorem full_queue_send_rejects_and_cleans_up_witness :
    countEv (Ev.qbufCam 1)
      (mainCameraTaskIter ⟨true, true, true, true, false⟩
        ⟨some ⟨1, 50, 100⟩, true, 42⟩ 0
        ⟨0, []⟩).trace = 1 ∧
    countEv Ev.freeOwned
      (mainEncodingTaskIter ⟨true, true, true, true, false⟩
        ⟨true, some 7, ⟨true, true⟩, 0⟩
        ⟨10, [{ size := 50, capacity := 100, timestamp := 42, frame_number := 0,
                format := 0, camera_buf_index := some 1,
                is_camera_buffer := some true }]⟩ ⟨0, []⟩).trace = 1 :=
  ⟨(full_queue_send_rejects_and_cleans_up.2.1 ⟨true, true, true, true, false⟩
      ⟨some ⟨1, 50, 100⟩, true, 42⟩ 0 ⟨0, []⟩ ⟨1, 50, 100⟩
      rfl rfl rfl rfl rfl).1,
   (full_queue_send_rejects_and_cleans_up.2.2 ⟨true, true, true, true, false⟩
      ⟨true, some 7, ⟨true, true⟩, 0⟩
      { size := 50, capacity := 100, timestamp := 42, frame_number := 0,
        format := 0, camera_buf_index := some 1, is_camera_buffer := some true }
      [] ⟨0, []⟩ 10 7 rfl rfl rfl rfl rfl rfl rfl rfl).1⟩

/-- C9: an owned-frame allocation failure is recoverable and never
fatal: the camera task requeues the checked-out camera buffer,
increments dropped and its loop continues; the encoding task requeues
the borrowed camera buffer, increments dropped and its loop
continues. -/
theorem alloc_failure_recoverable :
    (∀ (flags : Flags) (o : CamOracle) (fc : Nat)
       (rawQ : BoundedQueue FrameBuffer) (cb : CapBuf),
      flags.shutdown = false → flags.streamingActive = true →
      o.dqbuf = some cb → o.metaAllocOk = false →
      (mainCameraTaskIter flags o fc rawQ).trace =
        [Ev.takeCamLock, Ev.dqbufCamOk cb.index, Ev.qbufCam cb.index,
         Ev.giveCamLock, Ev.incCounter CounterId.dropped] ∧
      (mainCameraTaskIter flags o fc rawQ).exited = false) ∧
    (∀ (flags : Flags) (eo : EncOracle) (f : FrameBuffer)
       (rest : List FrameBuffer) (encQ : BoundedQueue FrameBuffer)
       (cap2 b i : Nat),
      flags.shutdown = false → flags.streamingActive = true →
      f.is_camera_buffer = some true → f.camera_buf_index = some i →
      eo.submitOk = true → eo.outBytes = some b →
      (frame_buffer_alloc b eo.alloc).2 = none →
      countEv (Ev.qbufCam i)
        (mainEncodingTaskIter flags eo ⟨cap2, f :: rest⟩ encQ).trace = 1 ∧
      countEv (Ev.incCounter CounterId.dropped)
        (mainEncodingTaskIter flags eo ⟨cap2, f :: rest⟩ encQ).trace = 1 ∧
      (mainEncodingTaskIter flags eo ⟨cap2, f :: rest⟩ encQ).exited = false) := by
  constructor
  · intro flags o fc rawQ cb hsd hstr hdq hma
    rw [cameraIter_allocfail_eq flags o fc rawQ cb hsd hstr hdq hma]
    exact ⟨rfl, rfl⟩
  · intro flags eo f rest encQ cap2 b i hsd hstr hcam hidx hsub hout hnone
    have halloc : frame_buffer_alloc b eo.alloc =
        ((frame_buffer_alloc b eo.alloc).1, none) := by
      rcases h : frame_buffer_alloc b eo.alloc with ⟨tr0, r⟩
      rw [h] at hnone
      simp at hnone
      simp [hnone]
    rw [encIter_allocfail_eq flags eo f rest encQ cap2 b _ hsd hstr hsub hout
      halloc]
    simp [return_camera_buffer_if_needed, hcam, hidx, countEv,
      List.countP_cons, List.countP_append, frame_buffer_alloc]
    rcases eo.alloc with ⟨mo, dok⟩
    cases mo <;> cases dok <;>
      simp [frame_buffer_alloc, countEv, List.countP_cons]

/-- C9 witness: the camera metadata-allocation failure and the
encoding allocation failure instantiated concretely. -/
theorem alloc_failure_recoverable_witness :
    (mainCameraTaskIter ⟨true, true, true, true, false⟩
      ⟨some ⟨1, 50, 100⟩, false, 42⟩ 0 ⟨10, []⟩).exited = false ∧
    countEv (Ev.incCounter CounterId.dropped)
      (mainEncodingTaskIter ⟨true, true, true, true, false⟩
        ⟨true, some 7, ⟨false, true⟩, 0⟩
        ⟨10, [{ size := 50, capacity := 100, timestamp := 42, frame_number := 0,
                format := 0, camera_buf_index := some 1,
                is_camera_buffer := some true }]⟩ ⟨10, []⟩).trace = 1 :=
  ⟨(alloc_failure_recoverable.1 ⟨true, true, true, true, false⟩
      ⟨some ⟨1, 50, 100⟩, false, 42⟩ 0 ⟨10, []⟩ ⟨1, 50, 100⟩
      rfl rfl rfl rfl).2,
   (alloc_failure_recoverable.2 ⟨true, true, true, true, false⟩
      ⟨true, some 7, ⟨false, true⟩, 0⟩
      { size := 50, capacity := 100, timestamp := 42, frame_number := 0,
        format := 0, camera_buf_index := some 1, is_camera_buffer := some true }
      [] ⟨10, []⟩ 10 7 1 rfl rfl rfl rfl rfl rfl rfl).2.1⟩

/-- C8: the timestamp and sequence number are assigned at capture (the
sent frame carries `esp_timer_get_time()` and the pre-increment frame
counter, which is then bumped so no later frame reuses the number),
and every encoded frame the encoding task emits carries exactly its
input frame's timestamp and sequence, unchanged. -/
theorem timestamp_sequence_assigned_once_and_propagated :
    (∀ (flags : Flags) (o : CamOracle) (fc : Nat)
       (rawQ : BoundedQueue FrameBuffer) (cb : CapBuf),
      flags.shutdown = false → flags.streamingActive = true →
      o.dqbuf = some cb → o.metaAllocOk = true →
      rawQ.items.length < rawQ.capacity →
      ∃ f, (mainCameraTaskIter flags o fc rawQ).sentFrame = some f ∧
        f.timestamp = o.now ∧ f.frame_number = fc ∧
        (mainCameraTaskIter flags o fc rawQ).frameCounter = fc + 1) ∧
    (∀ (flags : Flags) (eo : EncOracle) (f : FrameBuffer)
       (rest : List FrameBuffer) (encQ : BoundedQueue FrameBuffer)
       (cap2 : Nat) (g : FrameBuffer),
      (mainEncodingTaskIter flags eo ⟨cap2, f :: rest⟩ encQ).sentFrame = some g →
      g.timestamp = f.timestamp ∧ g.frame_number = f.frame_number) := by
  constructor
  · intro flags o fc rawQ cb hsd hstr hdq hma hroom
    rw [cameraIter_sent_eq flags o fc rawQ cb hsd hstr hdq hma hroom]
    exact ⟨_, rfl, rfl, rfl, rfl⟩
  · intro flags eo f rest encQ cap2 g hg
    have h := encIter_sentFrame_char flags eo f rest encQ cap2 g hg
    exact ⟨h.1, h.2.1⟩

/-- C8 witness: concrete capture and encode of one frame. -/
theorem timestamp_sequence_assigned_once_and_propagated_witness :
    (∃ f, (mainCameraTaskIter ⟨true, true, true, true, false⟩
        ⟨some ⟨1, 50, 100⟩, true, 42⟩ 3 ⟨10, []⟩).sentFrame = some f ∧
      f.timestamp = 42 ∧ f.frame_number = 3 ∧
      (mainCameraTaskIter ⟨true, true, true, true, false⟩
        ⟨some ⟨1, 50, 100⟩, true, 42⟩ 3 ⟨10, []⟩).frameCounter = 4) ∧
    ((⟨50, 50, 42, 3, 259, none, none⟩ : FrameBuffer).timestamp = 42 ∧
     (⟨50, 50, 42, 3, 259, none, none⟩ : FrameBuffer).frame_number = 3) :=
  ⟨timestamp_sequence_assigned_once_and_propagated.1
      ⟨true, true, true, true, false⟩ ⟨some ⟨1, 50, 100⟩, true, 42⟩ 3 ⟨10, []⟩
      ⟨1, 50, 100⟩ rfl rfl rfl rfl (by decide),
   timestamp_sequence_assigned_once_and_propagated.2
      ⟨true, true, true, true, false⟩ ⟨true, some 50, ⟨true, true⟩, 259⟩
      ⟨50, 100, 42, 3, 0, some 1, some true⟩ [] ⟨10, []⟩ 10
      ⟨50, 50, 42, 3, 259, none, none⟩ (by decide)⟩

/-- C10: `frame_buffer_alloc` either returns null with nothing leaked
(the metadata allocation, if it happened, is matched by a free and no
payload was allocated), or returns a frame whose `size` is 0,
`capacity` is the request, and `timestamp`/`frame_number`/`format` are
zero, with both ownership-tag fields unassigned; consequently every
encoded frame the encoding task emits carries an indeterminate
ownership tag. -/
theorem frame_buffer_alloc_spec :
    (∀ (capacity : Nat) (o : AllocOracle),
      ((frame_buffer_alloc capacity o).2 = none →
        countEv Ev.allocMeta (frame_buffer_alloc capacity o).1 =
          countEv Ev.freeMeta (frame_buffer_alloc capacity o).1 ∧
        countEv Ev.allocData (frame_buffer_alloc capacity o).1 = 0) ∧
      (∀ f, (frame_buffer_alloc capacity o).2 = some f →
        f.size = 0 ∧ f.capacity = capacity ∧ f.timestamp = 0 ∧
        f.frame_number = 0 ∧ f.format = 0 ∧
        f.camera_buf_index = none ∧ f.is_camera_buffer = none)) ∧
    (∀ (flags : Flags) (eo : EncOracle) (f : FrameBuffer)
       (rest : List FrameBuffer) (encQ : BoundedQueue FrameBuffer)
       (cap2 : Nat) (g : FrameBuffer),
      (mainEncodingTaskIter flags eo ⟨cap2, f :: rest⟩ encQ).sentFrame = some g →
      g.camera_buf_index = none ∧ g.is_camera_buffer = none) := by
  constructor
  · intro capacity o
    rcases o with ⟨mo, dok⟩
    cases mo with
    | false =>
      exact ⟨fun _ => by simp [frame_buffer_alloc, countEv],
             fun f hf => by simp [frame_buffer_alloc] at hf⟩
    | true =>
      cases dok with
      | false =>
        exact ⟨fun _ => by simp [frame_buffer_alloc, countEv, List.countP_cons],
               fun f hf => by simp [frame_buffer_alloc] at hf⟩
      | true =>
        refine ⟨fun hnone => by simp [frame_buffer_alloc] at hnone, ?_⟩
        intro f hf
        simp only [frame_buffer_alloc, Bool.not_true, Bool.not_false,
          not_true_eq_false, not_false_eq_true, if_true, if_false, ite_true,
          ite_false, Option.some.injEq] at hf
        subst hf
        exact ⟨rfl, rfl, rfl, rfl, rfl, rfl, rfl⟩
  · intro flags eo f rest encQ cap2 g hg
    have h := encIter_sentFrame_char flags eo f rest encQ cap2 g hg
    exact ⟨h.2.2.1, h.2.2.2⟩

/-- C10 witness: concrete success and failure of the allocator, and a
concrete encoded frame with an unassigned tag. -/
theorem frame_buffer_alloc_spec_witness :
    (countEv Ev.allocMeta (frame_buffer_alloc 64 ⟨true, false⟩).1 =
      countEv Ev.freeMeta (frame_buffer_alloc 64 ⟨true, false⟩).1) ∧
    ((⟨0, 64, 0, 0, 0, none, none⟩ : FrameBuffer).capacity = 64 ∧
     (⟨0, 64, 0, 0, 0, none, none⟩ : FrameBuffer).is_camera_buffer = none) ∧
    (⟨50, 50, 42, 3, 259, none, none⟩ : FrameBuffer).is_camera_buffer = none :=
  ⟨(((frame_buffer_alloc_spec.1 64 ⟨true, false⟩).1) (by decide)).1,
   ⟨((frame_buffer_alloc_spec.1 64 ⟨true, true⟩).2
       ⟨0, 64, 0, 0, 0, none, none⟩ (by decide)).2.1,
    ((frame_buffer_alloc_spec.1 64 ⟨true, true⟩).2
       ⟨0, 64, 0, 0, 0, none, none⟩ (by decide)).2.2.2.2.2.2⟩,
   (frame_buffer_alloc_spec.2 ⟨true, true, true, true, false⟩
      ⟨true, some 50, ⟨true, true⟩, 259⟩
      ⟨50, 100, 42, 3, 0, some 1, some true⟩ [] ⟨10, []⟩ 10
      ⟨50, 50, 42, 3, 259, none, none⟩ (by decide)).2⟩

/-- C4 counterexample: with `EVENT_STREAMING_ACTIVE` clear, one
successful invocation of the synchronous UVC callback
`video_fb_get_cb` increments `total_frames_captured`,
`total_frames_encoded` and `total_frames_streamed` — the callback
never consults the flag, so the claim that no pipeline path increments
these counters while the flag is clear is false. -/
theorem fbGet_increments_counters_while_streaming_clear :
    (⟨⟨true, true, true, false, false⟩, 0, 0, 0, 0, 0, ⟨10, []⟩, ⟨10, []⟩⟩ :
        SysState).flags.streamingActive = false ∧
    (applyAct
      ⟨⟨true, true, true, false, false⟩, 0, 0, 0, 0, 0, ⟨10, []⟩, ⟨10, []⟩⟩
      (Act.fbGet ⟨some ⟨0, 50, 100⟩, true, some 7⟩)).captured = 1 ∧
    (applyAct
      ⟨⟨true, true, true, false, false⟩, 0, 0, 0, 0, 0, ⟨10, []⟩, ⟨10, []⟩⟩
      (Act.fbGet ⟨some ⟨0, 50, 100⟩, true, some 7⟩)).encoded = 1 ∧
    (applyAct
      ⟨⟨true, true, true, false, false⟩, 0, 0, 0, 0, 0, ⟨10, []⟩, ⟨10, []⟩⟩
      (Act.fbGet ⟨some ⟨0, 50, 100⟩, true, some 7⟩)).streamed = 1 := by
  decide

/-- C4 (amended): while `EVENT_STREAMING_ACTIVE` is clear, neither the
capture loop nor the encoding loop increments any of captured /
encoded / streamed; but `video_fb_get_cb` does not consult the flag
and increments `captured` on every successful camera dequeue even
while the flag is clear. -/
theorem counters_frozen_only_in_task_loops (s : SysState)
    (h : s.flags.streamingActive = false) :
    (∀ o : CamOracle,
      (applyAct s (Act.camera o)).captured = s.captured ∧
      (applyAct s (Act.camera o)).encoded = s.encoded ∧
      (applyAct s (Act.camera o)).streamed = s.streamed) ∧
    (∀ o : EncOracle,
      (applyAct s (Act.encoding o)).captured = s.captured ∧
      (applyAct s (Act.encoding o)).encoded = s.encoded ∧
      (applyAct s (Act.encoding o)).streamed = s.streamed) ∧
    (∀ (o : FbOracle) (cb : CapBuf), o.dqbufCam = some cb →
      (applyAct s (Act.fbGet o)).captured = s.captured + 1) := by
  refine ⟨?_, ?_, ?_⟩
  · intro o
    by_cases hsd : s.flags.shutdown = true <;>
      simp [applyAct, mainCameraTaskIter, hsd, h, applyTrace, applyEv]
  · intro o
    by_cases hsd : s.flags.shutdown = true <;>
      simp [applyAct, mainEncodingTaskIter, hsd, h, applyTrace, applyEv]
  · intro o cb hdq
    rcases o with ⟨dq, encIn, encOut⟩
    cases hdq
    cases encIn <;> cases encOut <;>
      simp [applyAct, actTrace, video_fb_get_cb, applyTrace, applyEv,
        SysState.setCounter, SysState.counter]

/-- C4 witness: the amended statement at a concrete idle state. -/
theorem counters_frozen_only_in_task_loops_witness :
    (applyAct
      ⟨⟨true, true, true, false, false⟩, 9, 8, 7, 6, 0, ⟨10, []⟩, ⟨10, []⟩⟩
      (Act.camera ⟨some ⟨1, 50, 100⟩, true, 42⟩)).captured = 9 ∧
    (applyAct
      ⟨⟨true, true, true, false, false⟩, 9, 8, 7, 6, 0, ⟨10, []⟩, ⟨10, []⟩⟩
      (Act.fbGet ⟨some ⟨0, 50, 100⟩, true, some 7⟩)).captured = 10 :=
  ⟨((counters_frozen_only_in_task_loops
      ⟨⟨true, true, true, false, false⟩, 9, 8, 7, 6, 0, ⟨10, []⟩, ⟨10, []⟩⟩
      rfl).1 ⟨some ⟨1, 50, 100⟩, true, 42⟩).1,
   (counters_frozen_only_in_task_loops
      ⟨⟨true, true, true, false, false⟩, 9, 8, 7, 6, 0, ⟨10, []⟩, ⟨10, []⟩⟩
      rfl).2.2 ⟨some ⟨0, 50, 100⟩, true, some 7⟩ ⟨0, 50, 100⟩ rfl⟩

/-- C5: once `EVENT_SHUTDOWN` is set no step of any task, callback or
hook ever clears it, and with it set every task's loop exits at the
very next iteration's shutdown check, performing no further work and
holding no resource (its exit trace is empty). -/
theorem shutdown_latched_and_loops_exit_promptly :
    (∀ (s : SysState) (a : Act), s.flags.shutdown = true →
      (applyAct s a).flags.shutdown = true) ∧
    (∀ (flags : Flags) (o : CamOracle) (fc : Nat)
       (q : BoundedQueue FrameBuffer), flags.shutdown = true →
      mainCameraTaskIter flags o fc q = ⟨[], true, fc, q, none⟩) ∧
    (∀ (flags : Flags) (o : EncOracle) (q1 q2 : BoundedQueue FrameBuffer),
      flags.shutdown = true →
      mainEncodingTaskIter flags o q1 q2 = ⟨[], true, q1, q2, none, none⟩) ∧
    (∀ (flags : Flags) (r : Option SysEventType), flags.shutdown = true →
      mainEventHandlerTaskIter flags r = ⟨[], true⟩) ∧
    (∀ flags : Flags, flags.shutdown = true →
      mainUvcStreamTaskIter flags = ⟨[], true⟩) ∧
    (∀ flags : Flags, flags.shutdown = true →
      mainMonitorTaskIter flags = ⟨[], true⟩) := by
  refine ⟨?_, ?_, ?_, ?_, ?_, ?_⟩
  · intro s a hs
    cases a with
    | camera o => simp [applyAct, mainCameraTaskIter, hs, applyTrace]
    | encoding o => simp [applyAct, mainEncodingTaskIter, hs, applyTrace]
    | fbGet o =>
      rcases o with ⟨dq, encIn, encOut⟩
      cases dq <;> cases encIn <;> cases encOut <;>
        simp [applyAct, actTrace, video_fb_get_cb, applyTrace, applyEv,
          SysState.setCounter, SysState.counter, hs]
    | eventHandler r =>
      simp [applyAct, actTrace, mainEventHandlerTaskIter, hs, applyTrace]
    | uvcLoop =>
      simp [applyAct, actTrace, mainUvcStreamTaskIter, hs, applyTrace]
    | monitorLoop =>
      simp [applyAct, actTrace, mainMonitorTaskIter, hs, applyTrace]
    | initCamera =>
      simp [applyAct, actTrace, applyTrace, applyEv, Flags.set, hs]
    | initEncoding =>
      simp [applyAct, actTrace, applyTrace, applyEv, Flags.set, hs]
    | initUvc =>
      simp [applyAct, actTrace, applyTrace, applyEv, Flags.set, hs]
    | terCamera =>
      simp [applyAct, actTrace, applyTrace, applyEv, Flags.clear, hs]
    | terEncoding =>
      simp [applyAct, actTrace, applyTrace, applyEv, Flags.clear, hs]
    | terUvc =>
      simp [applyAct, actTrace, applyTrace, applyEv, Flags.clear, hs]
    | initiateShutdown =>
      simp [applyAct, actTrace, applyTrace, applyEv, Flags.set]
  · intro flags o fc q hs
    simp [mainCameraTaskIter, hs]
  · intro flags o q1 q2 hs
    simp [mainEncodingTaskIter, hs]
  · intro flags r hs
    simp [mainEventHandlerTaskIter, hs]
  · intro flags hs
    simp [mainUvcStreamTaskIter, hs]
  · intro flags hs
    simp [mainMonitorTaskIter, hs]

/-- C5 witness: with shutdown set, a concrete stop-stream step leaves
the bit set and a concrete camera iteration exits at once. -/
theorem shutdown_latched_and_loops_exit_promptly_witness :
    (applyAct
      ⟨⟨true, true, true, true, true⟩, 1, 1, 1, 0, 0, ⟨10, []⟩, ⟨10, []⟩⟩
      (Act.eventHandler (some SysEventType.stopStream))).flags.shutdown =
        true ∧
    mainCameraTaskIter ⟨true, true, true, true, true⟩
      ⟨some ⟨1, 50, 100⟩, true, 42⟩ 5 ⟨10, []⟩ =
      ⟨[], true, 5, ⟨10, []⟩, none⟩ :=
  ⟨shutdown_latched_and_loops_exit_promptly.1
      ⟨⟨true, true, true, true, true⟩, 1, 1, 1, 0, 0, ⟨10, []⟩, ⟨10, []⟩⟩
      (Act.eventHandler (some SysEventType.stopStream)) rfl,
   shutdown_latched_and_loops_exit_promptly.2.1 ⟨true, true, true, true, true⟩
      ⟨some ⟨1, 50, 100⟩, true, 42⟩ 5 ⟨10, []⟩ rfl⟩

/-- C6 counterexample: `os_startup` creates the raw-frame queue (the
capture-to-encode edge) with capacity `OS_QUEUE_MAX_ITEMS` = 10, not
the claimed 3 (`FRAME_QUEUE_SIZE` is an unused constant of the
alternative `app_tasks.c` implementation). -/
theorem raw_queue_capacity_is_ten_not_three :
    os_startup_queueCapacity QueueId.rawFrame = 10 ∧
    os_startup_queueCapacity QueueId.rawFrame ≠ FRAME_QUEUE_SIZE := by
  decide

/-- C6 (amended): all three queues are constructed with fixed capacity
10 (`OS_QUEUE_MAX_ITEMS`), and no queue operation or pipeline step
ever changes a queue's capacity afterwards. -/
theorem queue_capacities_fixed_at_construction :
    (∀ q : QueueId, os_startup_queueCapacity q = 10) ∧
    (∀ (q : BoundedQueue FrameBuffer) (x : FrameBuffer),
      (q.trySend x).2.capacity = q.capacity ∧
      q.receive.2.capacity = q.capacity) ∧
    (∀ (s : SysState) (a : Act),
      (applyAct s a).rawQ.capacity = s.rawQ.capacity ∧
      (applyAct s a).encQ.capacity = s.encQ.capacity) := by
  refine ⟨?_, ?_, ?_⟩
  · intro q; cases q <;> rfl
  · intro q x
    exact ⟨trySend_capacity q x, receive_capacity q⟩
  · intro s a
    cases a with
    | camera o =>
      have h1 := cameraIter_rawQueue_capacity s.flags o s.camFrameCounter s.rawQ
      have h2 := applyTrace_preserves_queues
        (mainCameraTaskIter s.flags o s.camFrameCounter s.rawQ).trace s
      simp only [applyAct]
      exact ⟨h1, by rw [h2.2]⟩
    | encoding o =>
      have h1 := encIter_queue_capacities s.flags o s.rawQ s.encQ
      simp only [applyAct]
      exact ⟨h1.1, h1.2⟩
    | fbGet o =>
      have h := applyTrace_preserves_queues (actTrace s (Act.fbGet o)) s
      simp only [applyAct]
      exact ⟨by rw [h.1], by rw [h.2]⟩
    | eventHandler r =>
      have h := applyTrace_preserves_queues (actTrace s (Act.eventHandler r)) s
      simp only [applyAct]
      exact ⟨by rw [h.1], by rw [h.2]⟩
    | uvcLoop =>
      have h := applyTrace_preserves_queues (actTrace s Act.uvcLoop) s
      simp only [applyAct]
      exact ⟨by rw [h.1], by rw [h.2]⟩
    | monitorLoop =>
      have h := applyTrace_preserves_queues (actTrace s Act.monitorLoop) s
      simp only [applyAct]
      exact ⟨by rw [h.1], by rw [h.2]⟩
    | initCamera =>
      have h := applyTrace_preserves_queues (actTrace s Act.initCamera) s
      simp only [applyAct]
      exact ⟨by rw [h.1], by rw [h.2]⟩
    | initEncoding =>
      have h := applyTrace_preserves_queues (actTrace s Act.initEncoding) s
      simp only [applyAct]
      exact ⟨by rw [h.1], by rw [h.2]⟩
    | initUvc =>
      have h := applyTrace_preserves_queues (actTrace s Act.initUvc) s
      simp only [applyAct]
      exact ⟨by rw [h.1], by rw [h.2]⟩
    | terCamera =>
      have h := applyTrace_preserves_queues (actTrace s Act.terCamera) s
      simp only [applyAct]
      exact ⟨by rw [h.1], by rw [h.2]⟩
    | terEncoding =>
      have h := applyTrace_preserves_queues (actTrace s Act.terEncoding) s
      simp only [applyAct]
      exact ⟨by rw [h.1], by rw [h.2]⟩
    | terUvc =>
      have h := applyTrace_preserves_queues (actTrace s Act.terUvc) s
      simp only [applyAct]
      exact ⟨by rw [h.1], by rw [h.2]⟩
    | initiateShutdown =>
      have h := applyTrace_preserves_queues (actTrace s Act.initiateShutdown) s
      simp only [applyAct]
      exact ⟨by rw [h.1], by rw [h.2]⟩

/-- C7 counterexample: the reset is four separate unsynchronized
writes; interleaving the monitor's four reads between them (read
`captured` before any write, the rest after all writes) observes
`[5, 0, 0, 0]` from initial counters `(5, 4, 3, 2)` — a partially
reset state that is neither the old values nor all zeros, so the reset
is not atomic with respect to monitor reads. -/
theorem reset_interleaving_partial_observation :
    runInterleaved
      ⟨⟨true, true, true, true, false⟩, 5, 4, 3, 2, 0, ⟨10, []⟩, ⟨10, []⟩⟩
      (eventHandlerDispatch SysEventType.resetStats)
      [CounterId.captured, CounterId.encoded, CounterId.streamed,
       CounterId.dropped]
      [false, true, true, true, true, false, false, false] = [5, 0, 0, 0] ∧
    ([5, 0, 0, 0] : List Nat) ≠ [5, 4, 3, 2] ∧
    ([5, 0, 0, 0] : List Nat) ≠ [0, 0, 0, 0] := by
  decide

/-- C7 (amended): after the ResetCounters event's four assignments
have all executed, every one of the four counters reads zero — but the
reset is not atomic with respect to concurrent reads. -/
theorem reset_zeroes_all_four_counters (s : SysState) :
    (applyTrace s (eventHandlerDispatch SysEventType.resetStats)).captured = 0 ∧
    (applyTrace s (eventHandlerDispatch SysEventType.resetStats)).encoded = 0 ∧
    (applyTrace s (eventHandlerDispatch SysEventType.resetStats)).streamed = 0 ∧
    (applyTrace s (eventHandlerDispatch SysEventType.resetStats)).dropped = 0 := by
  simp [eventHandlerDispatch, applyTrace, applyEv, SysState.setCounter,
    SysState.counter]

end Uvc
